import Mathlib

/-!
Verification of the TFTP client/server reference implementation.

The definitions below are a shallow embedding of the C sources:
`src/common/common.c`, `src/server/prog.c`, `src/server/tftp_server.c`,
`src/client/tftp_client.c`.  Buffers and datagrams are lists of byte
values (`Nat`, kept below 256 by explicit `% 256` wherever the C code
assigns to `unsigned char`); the network is a list of events (a received
datagram or a receive timeout); file and socket effects are made explicit
as an action trace.
-/

set_option maxRecDepth 16384

namespace TFTP

/-! ### Constants from common.h -/

def TFTP_MAX_RETRIES : Int := 3

def TFTP_MAX_DATA_SIZE : Nat := 512

def TFTP_DATA_HEADER_SIZE : Nat := 4

def TFTP_MAX_PACKET_SIZE : Nat := 516

def MAX_FILE_NAME : Nat := 256

def TFTP_RRQ : Nat := 1

def TFTP_WRQ : Nat := 2

def TFTP_DATA : Nat := 3

def TFTP_ACK : Nat := 4

def TFTP_ERROR : Nat := 5

def TFTP_DRQ : Nat := 6

/-! ### Packet construction and validation (common.c) -/

/-- `check_ack` (common.c:213).  The C function returns `true` only from its
first branch, `(buffer[2] == (block_number >> 8)) && (buffer[3] == (block_number & 0xFF))`;
both later branches return `false`, so the function is that byte comparison.
`block_number` is a nonnegative C `int` at every call site, modelled as `Nat`;
`>> 8` and `& 0xFF` on a nonnegative `int` are `/ 256` and `% 256`.  Note the
high-byte comparison is done on the full `int` shift, without truncation to a
byte. -/
def check_ack (buffer : List Nat) (block_number : Nat) : Bool :=
  (buffer.getD 2 0 == block_number / 256) && (buffer.getD 3 0 == block_number % 256)

/-- `send_data_packet` (common.c:86): overwrites bytes 0..3 of the scratch
buffer with the DATA header and sends the first `bytes_read + 4` bytes.
The assignment `buffer[2] = block_number >> 8` stores into `unsigned char`,
truncating mod 256.  Returns the updated buffer and the datagram handed to
`sendto`. -/
def send_data_packet (buffer : List Nat) (bytes_read : Nat) (block_number : Nat) :
    List Nat × List Nat :=
  let buf := [0, TFTP_DATA, block_number / 256 % 256, block_number % 256] ++ buffer.drop 4
  (buf, buf.take (bytes_read + TFTP_DATA_HEADER_SIZE))

/-- `send_ack` (common.c:244): overwrites bytes 0..3 with the ACK header and
sends exactly 4 bytes. -/
def send_ack (buffer : List Nat) (block_number : Nat) : List Nat × List Nat :=
  let buf := [0, TFTP_ACK, block_number / 256 % 256, block_number % 256] ++ buffer.drop 4
  (buf, buf.take TFTP_DATA_HEADER_SIZE)

/-- One interaction with the socket as seen by `get_response`: either
`recvfrom` times out (or fails), or a datagram arrives. -/
inductive NetEvent where
  | timeout
  | packet (bytes : List Nat)
  deriving Repr, DecidableEq

/-- `recvfrom` writes the datagram over the start of the scratch buffer;
bytes past the datagram's length keep their previous values. -/
def recv_overwrite (buffer datagram : List Nat) : List Nat :=
  datagram ++ buffer.drop datagram.length

/-- `get_response` (common.c:279): `-1` on timeout, receive error, ERROR
packet, or unknown opcode (the ERROR and default switch arms both return
`-1`); `1` for an ACK; the datagram length for DATA.  Also returns the
buffer after `recvfrom`. -/
def get_response (ev : NetEvent) (buffer : List Nat) : Int × List Nat :=
  match ev with
  | .timeout => (-1, buffer)
  | .packet p =>
      let buf := recv_overwrite buffer p
      if buf.getD 1 0 == TFTP_ACK then (1, buf)
      else if buf.getD 1 0 == TFTP_DATA then ((p.length : Int), buf)
      else (-1, buf)

/-- Result of one `validate_and_retry` call: the C return value, the state
reached through the three out-parameters, the scratch buffer (rewritten by
`send_data_packet` / `send_ack` on some paths) and the datagrams sent. -/
structure VRResult where
  ok : Bool
  buffer : List Nat
  block_number : Nat
  retry : Int
  success : Bool
  sent : List (List Nat)
  deriving Repr, DecidableEq

/-- `validate_and_retry` (common.c:326).  On a failed `check_ack` it sets
`*success = false`, increments `*retry`, aborts when the counter reached
`TFTP_MAX_RETRIES`, and otherwise retransmits: the last DATA block on the
upload side (after `fseek` rewinds the source; `fseek` failure is not
modelled) or an ACK carrying the current `*block_number` on the download
side.  On a successful `check_ack` the download side first ACKs
`*block_number`, then the counter is reset and the block number
incremented. -/
def validate_and_retry (buffer : List Nat) (block_number : Nat) (retry : Int)
    (bytes_read : Nat) (is_upload : Bool) : VRResult :=
  if ¬ check_ack buffer block_number then
    let retry1 := retry + 1
    if retry1 ≥ TFTP_MAX_RETRIES then
      ⟨false, buffer, block_number, retry1, false, []⟩
    else if is_upload then
      let r := send_data_packet buffer bytes_read block_number
      ⟨true, r.1, block_number, retry1, false, [r.2]⟩
    else
      let r := send_ack buffer block_number
      ⟨true, r.1, block_number, retry1, false, [r.2]⟩
  else
    if is_upload then
      ⟨true, buffer, block_number + 1, 0, true, []⟩
    else
      let r := send_ack buffer block_number
      ⟨true, r.1, block_number + 1, 0, true, [r.2]⟩

/-! ### The two transfer loops (common.c) -/

/-- Observable effects of the transfer engine: a datagram handed to
`sendto`, or a payload appended to the local file by `fwrite`. -/
inductive Action where
  | send (bytes : List Nat)
  | fwrite (bytes : List Nat)
  deriving Repr, DecidableEq

/-- State threaded through the send loop: the scratch buffer, the bytes of
the source file not yet consumed by `fread` (an `fseek` rewind puts bytes
back), and the three variables the handlers pass by pointer. -/
structure SendState where
  buffer : List Nat
  file : List Nat
  block_number : Nat
  retry : Int
  success : Bool
  deriving Repr, DecidableEq

/-- Result of one loop-body iteration: the C return value (`true` = keep
looping), the new state, and the actions performed. -/
structure StepResult (σ : Type) where
  cont : Bool
  state : σ
  acts : List Action
  deriving Repr, DecidableEq

/-- `process_transfer_send` (common.c:379).  `fread` pulls up to 512 bytes
into `buffer + 4`; `bytes_read <= 0` ends the loop before anything is sent.
Otherwise the block is sent, one response is awaited, and
`validate_and_retry` classifies it; the source stays rewound exactly when
`validate_and_retry` took its retransmit path.  A short block that was
acknowledged ends the loop successfully. -/
def process_transfer_send (ev : NetEvent) (s : SendState) : StepResult SendState :=
  let chunk := s.file.take TFTP_MAX_DATA_SIZE
  let bytes_read := chunk.length
  if bytes_read = 0 then
    ⟨false, s, []⟩
  else
    let buf0 := s.buffer.take TFTP_DATA_HEADER_SIZE ++ chunk
      ++ s.buffer.drop (TFTP_DATA_HEADER_SIZE + bytes_read)
    let sd := send_data_packet buf0 bytes_read s.block_number
    let gr := get_response ev sd.1
    if gr.1 < 0 then
      ⟨false, { s with buffer := gr.2, file := s.file.drop bytes_read },
        [Action.send sd.2]⟩
    else
      let vr := validate_and_retry gr.2 s.block_number s.retry bytes_read true
      let file1 := if vr.ok ∧ ¬ vr.success then s.file else s.file.drop bytes_read
      let s1 : SendState := ⟨vr.buffer, file1, vr.block_number, vr.retry, vr.success⟩
      let acts := Action.send sd.2 :: vr.sent.map Action.send
      if ¬ vr.ok then ⟨false, s1, acts⟩
      else if bytes_read < TFTP_MAX_DATA_SIZE ∧ vr.success then ⟨false, s1, acts⟩
      else ⟨true, s1, acts⟩

/-- State threaded through the receive loop; `fileData` is the sequence of
payloads successfully written to the local file so far. -/
structure RecvState where
  buffer : List Nat
  fileData : List (List Nat)
  block_number : Nat
  retry : Int
  success : Bool
  deriving Repr, DecidableEq

/-- `process_transfer_receive` (common.c:415).  One datagram is awaited and
classified by `validate_and_retry`; afterwards `write_to_file(buffer + 4,
len - 4)` runs (also on the retransmit path), failing when `len - 4 < 0`
or when `fwrite` comes up short (`writeOk = false`; the error packet
`write_to_file` tries to send goes to a NULL socket, so nothing is sent).
A datagram shorter than 516 bytes after a successful block ends the loop. -/
def process_transfer_receive (ev : NetEvent) (writeOk : Bool) (s : RecvState) :
    StepResult RecvState :=
  let gr := get_response ev s.buffer
  if gr.1 < 0 then
    ⟨false, { s with buffer := gr.2 }, []⟩
  else
    let vr := validate_and_retry gr.2 s.block_number s.retry 0 false
    let s1 : RecvState := ⟨vr.buffer, s.fileData, vr.block_number, vr.retry, vr.success⟩
    let acts := vr.sent.map Action.send
    if ¬ vr.ok then ⟨false, s1, acts⟩
    else if gr.1 - 4 < 0 ∨ writeOk = false then
      ⟨false, s1, acts⟩
    else
      let payload := (vr.buffer.drop TFTP_DATA_HEADER_SIZE).take (gr.1 - 4).toNat
      let s2 := { s1 with fileData := s1.fileData ++ [payload] }
      let acts2 := acts ++ [Action.fwrite payload]
      if gr.1 < (TFTP_MAX_PACKET_SIZE : Int) ∧ vr.success then ⟨false, s2, acts2⟩
      else ⟨true, s2, acts2⟩

/-- `while (process_transfer_send(...));` — the loop runs until the body
returns `false`; the model also stops when the supplied event list runs
out (the real program would block in `recvfrom`). -/
def transfer_send_loop : List NetEvent → SendState → SendState × List Action
  | [], s => (s, [])
  | ev :: rest, s =>
      let r := process_transfer_send ev s
      if r.cont then
        let t := transfer_send_loop rest r.state
        (t.1, r.acts ++ t.2)
      else (r.state, r.acts)

/-- `while (process_transfer_receive(...));` with one write-outcome flag per
iteration. -/
def transfer_receive_loop : List (NetEvent × Bool) → RecvState → RecvState × List Action
  | [], s => (s, [])
  | evw :: rest, s =>
      let r := process_transfer_receive evw.1 evw.2 s
      if r.cont then
        let t := transfer_receive_loop rest r.state
        (t.1, r.acts ++ t.2)
      else (r.state, r.acts)

/-! ### Request handlers (tftp_client.c, tftp_server.c) -/

/-- After its receive loop, client `download_request` (tftp_client.c:86) and
server `upload_request` (tftp_server.c:79) call `remove(request->filename)`
exactly when `!success || request->buffer[1] == TFTP_ERROR`. -/
def removes_partial_file (s : RecvState) : Bool :=
  !s.success || (s.buffer.getD 1 0 == TFTP_ERROR)

/-- Client `download_request` (tftp_client.c:61) after the RRQ has been sent
and the sink opened: the receive loop starts at `block_number = 1`,
`retry = -1`.  Returns the final state, the trace, whether the local file
was removed, and the handler's return value (`success`). -/
def download_request_run (buf0 : List Nat) (events : List (NetEvent × Bool)) :
    RecvState × List Action × Bool × Bool :=
  let s0 : RecvState := ⟨buf0, [], 1, -1, false⟩
  let t := transfer_receive_loop events s0
  (t.1, t.2, removes_partial_file t.1, t.1.success)

/-- Server `upload_request` (tftp_server.c:54) after the sink has been
opened: it sends `ACK(0)` (`block_number++` makes the expected block 1) and
runs the receive loop with `retry = -2`. -/
def upload_request_run (buf0 : List Nat) (events : List (NetEvent × Bool)) :
    RecvState × List Action × Bool :=
  let a0 := send_ack buf0 0
  let s0 : RecvState := ⟨a0.1, [], 1, -2, false⟩
  let t := transfer_receive_loop events s0
  (t.1, Action.send a0.2 :: t.2, removes_partial_file t.1)

/-- The send side: client `upload_request` (tftp_client.c:119) and server
`download_request` (tftp_server.c:101) both start their loop at
`block_number = 1`, `retry = 0`. -/
def transfer_send_run (buf0 file : List Nat) (events : List NetEvent) :
    SendState × List Action :=
  transfer_send_loop events ⟨buf0, file, 1, 0, false⟩

/-- Number of ACK datagrams in a trace (opcode byte 4). -/
def countAckSends (acts : List Action) : Nat :=
  (acts.filter (fun a => match a with
    | .send q => q.getD 1 0 == TFTP_ACK
    | .fwrite _ => false)).length

/-! ### Server dispatcher validation (server/prog.c) -/

/-- `strlen` / `strnlen` reading of a C string out of a byte list: the bytes
before the first NUL. -/
def cstr (l : List Nat) : List Nat := l.takeWhile (fun b => b ≠ 0)

/-- The dispatcher's scratch buffer after `memset(0)` and `recvfrom`
(prog.c:68): the datagram followed by zero padding up to 516 bytes. -/
def padBuffer (d : List Nat) : List Nat :=
  d ++ List.replicate (TFTP_MAX_PACKET_SIZE - d.length) 0

/-- `tolower` on a byte, as used by `strcasecmp`. -/
def toLowerByte (b : Nat) : Nat := if 65 ≤ b ∧ b ≤ 90 then b + 32 else b

/-- The bytes of the `MODE` macro `"octet"` (prog.h:17). -/
def octetBytes : List Nat := [111, 99, 116, 101, 116]

/-- `validate_mode` (prog.c:177): the mode string starts one byte past the
filename's NUL; it must equal `"octet"` case-insensitively. -/
def validate_mode (buffer : List Nat) : Bool :=
  let filename := cstr (buffer.drop 2)
  let mode := cstr (buffer.drop (2 + filename.length + 1))
  mode.map toLowerByte == octetBytes

/-- `validate_operation` (prog.c:262): the big-endian opcode must be RRQ,
WRQ or DRQ. -/
def validate_operation (buffer : List Nat) : Bool :=
  let opcode := buffer.getD 0 0 * 256 + buffer.getD 1 0
  opcode == TFTP_RRQ || opcode == TFTP_WRQ || opcode == TFTP_DRQ

/-- `validate_filename` (prog.c:286): `strnlen(filename, MAX_FILE_NAME)`
must be nonzero (`strdup` failure is not modelled). -/
def validate_filename (buffer : List Nat) : Bool :=
  !(min (cstr (buffer.drop 2)).length MAX_FILE_NAME == 0)

/-- `validate_request_count` (prog.c:241): the datagram must be at least 4
bytes (`server` and `request` are never NULL in the dispatcher loop). -/
def validate_request_count (len : Nat) : Bool :=
  !(len < TFTP_DATA_HEADER_SIZE)

/-- The four structural checks of `validate_request` (prog.c:205) in source
order, stopping at the first failure; the second component records that the
failing check called `send_error_packet` (every reject branch of the four
validators does).  The per-opcode filesystem checks that follow them in the
C code are outside this model. -/
def validate_request_core (d : List Nat) : Bool × Bool :=
  let buffer := padBuffer d
  if ¬ validate_request_count d.length then (false, true)
  else if ¬ validate_mode buffer then (false, true)
  else if ¬ validate_operation buffer then (false, true)
  else if ¬ validate_filename buffer then (false, true)
  else (true, false)

/-- `validate_request` (prog.c:205) as the dispatcher sees it: the four
structural checks, then the per-opcode filesystem precondition, whose
host-dependent outcome is the parameter `fsOk`.  `handle_request` runs only
when this returns `true`. -/
def validate_request (d : List Nat) (fsOk : Bool) : Bool :=
  (validate_request_core d).1 && fsOk

/-- The dispatcher acceptance conditions as the specification words them
(spec.md §4.E step 3), read directly off the datagram: length at least 4;
opcode in {1,2,6}; filename present (nonempty) and NUL-terminated within
the datagram; mode field present and equal to "octet" case-insensitively. -/
def spec_accepts (d : List Nat) : Prop :=
  4 ≤ d.length ∧
  (d.getD 0 0 * 256 + d.getD 1 0 = 1 ∨ d.getD 0 0 * 256 + d.getD 1 0 = 2 ∨
    d.getD 0 0 * 256 + d.getD 1 0 = 6) ∧
  (cstr (d.drop 2) ≠ [] ∧ 2 + (cstr (d.drop 2)).length < d.length) ∧
  (cstr (d.drop (2 + (cstr (d.drop 2)).length + 1))).map toLowerByte = octetBytes

instance (d : List Nat) : Decidable (spec_accepts d) := by
  unfold spec_accepts; infer_instance

/-! ### Error packets (common.c:149) -/

/-- Bytes of a Lean string literal, for the C string constants. -/
def strBytes (s : String) : List Nat := s.data.map Char.toNat

/-- `tftp_error_message` (common.c:189); every unlisted code falls to the
default arm. -/
def tftp_error_message (error_code : Nat) : String :=
  if error_code = 1 then "File not found"
  else if error_code = 2 then "Access violation"
  else if error_code = 3 then "Disk full or allocation exceeded"
  else if error_code = 4 then "Illegal TFTP operation"
  else if error_code = 5 then "Unknown transfer ID"
  else if error_code = 6 then "File already exists"
  else if error_code = 7 then "No such user"
  else "Undefined error"

/-- `snprintf(dst, n, ...)` with the formatted string `s`: at most `n - 1`
bytes are stored, always NUL-terminated. -/
def snprintf_write (n : Nat) (s : List Nat) : List Nat := s.take (n - 1) ++ [0]

/-- The message `send_error_packet` formats: the canonical message alone, or
`"<canonical> - <custom>"` when a custom message is supplied. -/
def error_payload (error_code : Nat) (custom_message : Option (List Nat)) : List Nat :=
  match custom_message with
  | some c => strBytes (tftp_error_message error_code) ++ strBytes " - " ++ c
  | none => strBytes (tftp_error_message error_code)

/-- `send_error_packet` (common.c:149) with a non-NULL socket and buffer:
bytes 0..3 get `[0, 5, code >> 8 & 0xFF, code & 0xFF]`, `snprintf` with
size `516 - 4 = 512` writes the message after them, and the datagram handed
to `sendto` is `4 + strlen(buffer + 4) + 1` bytes of the buffer.  Returns
the updated buffer and that datagram. -/
def send_error_packet (error_code : Nat) (custom_message : Option (List Nat))
    (buffer : List Nat) : List Nat × List Nat :=
  let region := snprintf_write (TFTP_MAX_PACKET_SIZE - TFTP_DATA_HEADER_SIZE)
    (error_payload error_code custom_message)
  let buf := [0, TFTP_ERROR, error_code / 256 % 256, error_code % 256] ++ region
    ++ buffer.drop (TFTP_DATA_HEADER_SIZE + region.length)
  (buf, buf.take (TFTP_DATA_HEADER_SIZE + (cstr (buf.drop 4)).length + 1))

/-! ### Helper lemmas -/

theorem recv_overwrite_getD (buf p : List Nat) {i : Nat} (h : i < p.length) :
    (recv_overwrite buf p).getD i 0 = p.getD i 0 := by
  unfold recv_overwrite
  rcases Nat.lt_or_ge i p.length with h' | h'
  · simp [List.getD_eq_getElem?_getD, List.getElem?_append_left h']
  · omega

theorem check_ack_recv_overwrite (buf p : List Nat) (h : 4 ≤ p.length) (b : Nat) :
    check_ack (recv_overwrite buf p) b = check_ack p b := by
  unfold check_ack
  rw [recv_overwrite_getD buf p (by omega), recv_overwrite_getD buf p (by omega)]

theorem send_ack_snd (buffer : List Nat) (b : Nat) :
    (send_ack buffer b).2 = [0, TFTP_ACK, b / 256 % 256, b % 256] := rfl

theorem send_ack_fst (buffer : List Nat) (b : Nat) :
    (send_ack buffer b).1 = [0, TFTP_ACK, b / 256 % 256, b % 256] ++ buffer.drop 4 := rfl

theorem recv_overwrite_drop_four (buf p : List Nat) (h : 4 ≤ p.length) :
    (recv_overwrite buf p).drop 4 = p.drop 4 ++ buf.drop p.length := by
  unfold recv_overwrite
  exact List.drop_append_of_le_length h

theorem recv_payload_take (buf p : List Nat) (h : 4 ≤ p.length) :
    ((recv_overwrite buf p).drop 4).take (p.length - 4) = p.drop 4 := by
  rw [recv_overwrite_drop_four buf p h, List.take_append_of_le_length (by simp),
    List.take_of_length_le (by simp)]

theorem get_response_ack (p : List Nat) (h : 2 ≤ p.length) (hop : p.getD 1 0 = TFTP_ACK)
    (buf : List Nat) : get_response (.packet p) buf = (1, recv_overwrite buf p) := by
  have h1 : (recv_overwrite buf p).getD 1 0 = TFTP_ACK := by
    rw [recv_overwrite_getD buf p (by omega)]; exact hop
  simp only [get_response, h1, beq_iff_eq]
  simp

theorem get_response_data (p : List Nat) (h : 2 ≤ p.length) (hop : p.getD 1 0 = TFTP_DATA)
    (buf : List Nat) :
    get_response (.packet p) buf = ((p.length : Int), recv_overwrite buf p) := by
  have h1 : (recv_overwrite buf p).getD 1 0 = TFTP_DATA := by
    rw [recv_overwrite_getD buf p (by omega)]; exact hop
  simp only [get_response, h1, beq_iff_eq]
  simp [TFTP_DATA, TFTP_ACK]

theorem get_response_other (p : List Nat) (h : 2 ≤ p.length)
    (hop4 : p.getD 1 0 ≠ TFTP_ACK) (hop3 : p.getD 1 0 ≠ TFTP_DATA) (buf : List Nat) :
    get_response (.packet p) buf = (-1, recv_overwrite buf p) := by
  have h1 : (recv_overwrite buf p).getD 1 0 = p.getD 1 0 := recv_overwrite_getD buf p (by omega)
  simp only [get_response, h1, beq_iff_eq]
  rw [if_neg hop4, if_neg hop3]

theorem va_match_up (buffer : List Nat) (b : Nat) (r : Int) (n : Nat)
    (hack : check_ack buffer b = true) :
    validate_and_retry buffer b r n true = ⟨true, buffer, b + 1, 0, true, []⟩ := by
  unfold validate_and_retry
  simp [hack]

theorem va_match_down (buffer : List Nat) (b : Nat) (r : Int) (n : Nat)
    (hack : check_ack buffer b = true) :
    validate_and_retry buffer b r n false
      = ⟨true, (send_ack buffer b).1, b + 1, 0, true, [(send_ack buffer b).2]⟩ := by
  unfold validate_and_retry
  simp [hack]

theorem va_mismatch_abort (buffer : List Nat) (b : Nat) (r : Int) (n : Nat) (u : Bool)
    (hack : check_ack buffer b = false) (hr : 3 ≤ r + 1) :
    validate_and_retry buffer b r n u = ⟨false, buffer, b, r + 1, false, []⟩ := by
  unfold validate_and_retry
  simp [hack, TFTP_MAX_RETRIES, hr]

theorem va_mismatch_retry_up (buffer : List Nat) (b : Nat) (r : Int) (n : Nat)
    (hack : check_ack buffer b = false) (hr : r + 1 < 3) :
    validate_and_retry buffer b r n true
      = ⟨true, (send_data_packet buffer n b).1, b, r + 1, false,
          [(send_data_packet buffer n b).2]⟩ := by
  unfold validate_and_retry
  simp [hack, TFTP_MAX_RETRIES, Int.not_le.mpr hr]

theorem va_mismatch_retry_down (buffer : List Nat) (b : Nat) (r : Int) (n : Nat)
    (hack : check_ack buffer b = false) (hr : r + 1 < 3) :
    validate_and_retry buffer b r n false
      = ⟨true, (send_ack buffer b).1, b, r + 1, false, [(send_ack buffer b).2]⟩ := by
  unfold validate_and_retry
  simp [hack, TFTP_MAX_RETRIES, Int.not_le.mpr hr]

/-! ### Claim theorems -/

/-- C1.  The claim says a file whose size is a multiple of 512 ends with a
zero-length DATA block, so an empty file yields one DATA block and a
512-byte file two.  The code (`process_transfer_send`, common.c:382)
returns before sending anything when `fread` yields no bytes: an empty
file puts zero DATA blocks on the wire and the handler reports failure,
and a 512-byte file puts exactly one 516-byte datagram (512 payload
bytes) on the wire — no zero-length terminator — while `success` stays
`true` from the full block. -/
theorem c1_no_final_zero_length_block :
    (transfer_send_run (List.replicate 516 0) [] [NetEvent.packet [0, 4, 0, 1]]).2 = []
    ∧ (transfer_send_run (List.replicate 516 0) [] [NetEvent.packet [0, 4, 0, 1]]).1.success
        = false
    ∧ ((transfer_send_run (List.replicate 516 0) (List.replicate 512 55)
        [NetEvent.packet [0, 4, 0, 1], NetEvent.packet [0, 4, 0, 2]]).2.map
          (fun a => match a with | .send p => p.length | .fwrite p => p.length)) = [516]
    ∧ (transfer_send_run (List.replicate 516 0) (List.replicate 512 55)
        [NetEvent.packet [0, 4, 0, 1], NetEvent.packet [0, 4, 0, 2]]).1.success = true :=
  ⟨rfl, rfl, rfl, rfl⟩

/-- C2 counterexample.  Server `upload_request` starts its loop with
`retry = -2` (tftp_server.c:75).  Five consecutive mismatching DATA
datagrams make it retransmit `ACK(1)` for the same expected block four
times — not at most three — before the counter reaches 3 and the
transfer aborts. -/
theorem c2_counterexample :
    ((upload_request_run (List.replicate 516 0)
        (List.replicate 5 (NetEvent.packet [0, 3, 9, 9], true))).2.1.filter
      (fun a => match a with | .send p => p == [0, 4, 0, 1] | .fwrite _ => false)).length = 4
    ∧ (upload_request_run (List.replicate 516 0)
        (List.replicate 5 (NetEvent.packet [0, 3, 9, 9], true))).1.retry = 3
    ∧ (upload_request_run (List.replicate 516 0)
        (List.replicate 5 (NetEvent.packet [0, 3, 9, 9], true))).1.success = false :=
  ⟨rfl, rfl, rfl⟩

/-- C3.  A server upload that accepts block 1 (512 bytes written) and then
times out waiting for block 2 ends in failure, yet the 512-byte partial
file is kept: `success` still holds the value from the last accepted
block and `buffer[1]` holds the ACK opcode, so the
`!success || buffer[1] == TFTP_ERROR` removal test (tftp_server.c:79) is
false and `remove` is not called. -/
theorem c3_partial_file_kept_on_timeout :
    (upload_request_run (List.replicate 516 0)
      [(NetEvent.packet ([0, 3, 0, 1] ++ List.replicate 512 7), true),
       (NetEvent.timeout, true)]).2.2 = false
    ∧ (upload_request_run (List.replicate 516 0)
      [(NetEvent.packet ([0, 3, 0, 1] ++ List.replicate 512 7), true),
       (NetEvent.timeout, true)]).1.fileData = [List.replicate 512 7]
    ∧ (upload_request_run (List.replicate 516 0)
      [(NetEvent.packet ([0, 3, 0, 1] ++ List.replicate 512 7), true),
       (NetEvent.timeout, true)]).1.success = true :=
  ⟨rfl, rfl, rfl⟩

/-- C4 counterexample.  `check_ack` never inspects the opcode and
`get_response` also accepts DATA datagrams, so the sender advances
(block 1 → 2, retry reset, success) on a received DATA packet whose
block bytes happen to match — a packet that is not an ACK for block 1. -/
theorem c4_counterexample :
    (process_transfer_send (NetEvent.packet [0, 3, 0, 1])
        ⟨List.replicate 516 0, [7], 1, 0, false⟩).state.block_number = 2
    ∧ (process_transfer_send (NetEvent.packet [0, 3, 0, 1])
        ⟨List.replicate 516 0, [7], 1, 0, false⟩).state.retry = 0
    ∧ (process_transfer_send (NetEvent.packet [0, 3, 0, 1])
        ⟨List.replicate 516 0, [7], 1, 0, false⟩).state.success = true
    ∧ [0, 3, 0, 1].getD 1 0 ≠ TFTP_ACK :=
  ⟨rfl, rfl, rfl, by decide⟩

/-- C5.  A receiver expecting block 2 that gets the retransmitted older
DATA(1) re-sends an ACK carrying block 2 — the expected, not yet
received block — instead of the older block's number 1 that the claim
(and RFC 1350 recovery) requires; it does stay on block 2 and increments
the retry counter. -/
theorem c5_reack_carries_expected_block :
    (validate_and_retry ([0, 3, 0, 1] ++ List.replicate 512 7) 2 0 0 false).sent
        = [[0, 4, 0, 2]]
    ∧ (validate_and_retry ([0, 3, 0, 1] ++ List.replicate 512 7) 2 0 0 false).block_number = 2
    ∧ (validate_and_retry ([0, 3, 0, 1] ++ List.replicate 512 7) 2 0 0 false).retry = 1 :=
  ⟨rfl, rfl, rfl⟩

/-- C8 counterexample.  At internal block number 65536 the DATA encoder
wraps on the wire (block bytes 0,0), but `check_ack` compares the
untruncated `block_number >> 8` (= 256) against a byte, so the matching
wrapped ACK `[0,4,0,0]` is rejected even though 65536 ≡ 0 (mod 2^16). -/
theorem c8_counterexample :
    check_ack [0, 4, 0, 0] 65536 = false
    ∧ (send_data_packet (List.replicate 516 1) 0 65536).2 = [0, 3, 0, 0]
    ∧ 65536 % 65536 = 0 :=
  ⟨rfl, rfl, rfl⟩

/-- C6.  In the send loop, an ACK with the correct block number resets the
retry counter to 0, increments the block number, sets the success flag,
and — when the payload just transmitted was shorter than 512 bytes — ends
the loop. -/
theorem c6_correct_ack_advances (s : SendState) (p : List Nat)
    (hlen : 4 ≤ p.length) (hfile : s.file ≠ [])
    (hop : p.getD 1 0 = TFTP_ACK)
    (hack : check_ack p s.block_number = true) :
    (process_transfer_send (.packet p) s).state.retry = 0
    ∧ (process_transfer_send (.packet p) s).state.block_number = s.block_number + 1
    ∧ (process_transfer_send (.packet p) s).state.success = true
    ∧ ((s.file.take 512).length < 512 → (process_transfer_send (.packet p) s).cont = false) := by
  have hca : ∀ X : List Nat, check_ack (recv_overwrite X p) s.block_number = true :=
    fun X => by rw [check_ack_recv_overwrite _ _ hlen]; exact hack
  have hva : ∀ (X : List Nat) (r : Int) (n : Nat),
      validate_and_retry (recv_overwrite X p) s.block_number r n true
        = ⟨true, recv_overwrite X p, s.block_number + 1, 0, true, []⟩ :=
    fun X r n => va_match_up _ _ _ _ (hca X)
  have hb0 : ¬ (s.file.take TFTP_MAX_DATA_SIZE).length = 0 := by
    have := List.length_pos.mpr hfile
    simp only [List.length_take, TFTP_MAX_DATA_SIZE]
    omega
  simp only [process_transfer_send, get_response_ack p (by omega) hop, hb0, if_false, hva]
  norm_num [TFTP_MAX_DATA_SIZE]
  rcases Nat.lt_or_ge s.file.length 512 with h | h
  · simp [h]
  · simp [Nat.not_lt.mpr h]

/-- Bytes 0..3 of the buffer rewritten by `send_ack` leave the rest alone. -/
theorem send_ack_fst_drop (buffer : List Nat) (b : Nat) :
    ((send_ack buffer b).1).drop 4 = buffer.drop 4 := rfl

/-- C10.  On the receive path an accepted DATA block is acknowledged and the
expected block number advanced before `write_to_file` runs: the step's
action trace starts with the ACK, the write (of the datagram's payload)
comes second when it succeeds, and when the write fails the block has
still been ACKed and counted but nothing was persisted and the transfer
aborts. -/
theorem c10_ack_before_write (s : RecvState) (p : List Nat) (w : Bool)
    (hop : p.getD 1 0 = TFTP_DATA) (hlen : 4 ≤ p.length)
    (hack : check_ack p s.block_number = true) :
    ((process_transfer_receive (.packet p) w s).acts.take 1
        = [Action.send [0, TFTP_ACK, s.block_number / 256 % 256, s.block_number % 256]])
    ∧ (process_transfer_receive (.packet p) w s).state.block_number = s.block_number + 1
    ∧ (w = true →
        (process_transfer_receive (.packet p) w s).acts
          = [Action.send [0, TFTP_ACK, s.block_number / 256 % 256, s.block_number % 256],
             Action.fwrite (p.drop 4)])
    ∧ (w = false →
        (process_transfer_receive (.packet p) w s).acts
          = [Action.send [0, TFTP_ACK, s.block_number / 256 % 256, s.block_number % 256]]
        ∧ (process_transfer_receive (.packet p) w s).state.fileData = s.fileData
        ∧ (process_transfer_receive (.packet p) w s).cont = false) := by
  have hca : check_ack (recv_overwrite s.buffer p) s.block_number = true := by
    rw [check_ack_recv_overwrite _ _ hlen]; exact hack
  have hn : ¬ ((p.length : Int) < 0) := by omega
  have htn : ((p.length : Int) - 4).toNat = p.length - 4 := by omega
  have hpay : (((send_ack (recv_overwrite s.buffer p) s.block_number).1).drop 4).take
      (((p.length : Int) - 4).toNat) = p.drop 4 := by
    rw [send_ack_fst_drop, htn, recv_payload_take _ _ hlen]
  cases w
  · simp only [process_transfer_receive, get_response_data p (by omega) hop,
      va_match_down _ _ _ _ hca, send_ack_snd, hn, if_false]
    norm_num
  · have h4 : ¬ (((p.length : Int) - 4 < 0) ∨ (true = false)) := by
      simp; omega
    simp only [process_transfer_receive, get_response_data p (by omega) hop,
      va_match_down _ _ _ _ hca, send_ack_snd, hn, if_false, h4,
      TFTP_DATA_HEADER_SIZE, hpay]
    norm_num
    rcases Nat.lt_or_ge p.length TFTP_MAX_PACKET_SIZE with h | h
    · simp [h]
    · simp [Nat.not_lt.mpr h]

/-- Witness for C6 at a concrete one-byte file and matching ACK. -/
theorem c6_correct_ack_advances_witness :
    (process_transfer_send (.packet [0, 4, 0, 1])
        (SendState.mk (List.replicate 516 0) [7] 1 0 false)).state.retry = 0
    ∧ (process_transfer_send (.packet [0, 4, 0, 1])
        (SendState.mk (List.replicate 516 0) [7] 1 0 false)).state.block_number = 1 + 1
    ∧ (process_transfer_send (.packet [0, 4, 0, 1])
        (SendState.mk (List.replicate 516 0) [7] 1 0 false)).state.success = true
    ∧ ((([7] : List Nat).take 512).length < 512 →
        (process_transfer_send (.packet [0, 4, 0, 1])
          (SendState.mk (List.replicate 516 0) [7] 1 0 false)).cont = false) :=
  c6_correct_ack_advances (SendState.mk (List.replicate 516 0) [7] 1 0 false) [0, 4, 0, 1]
    (by decide) (by decide) (by decide) (by decide)

/-- Witness for C10 at a concrete accepted DATA block with a failing write. -/
theorem c10_ack_before_write_witness :
    ((process_transfer_receive (.packet [0, 3, 0, 1, 65, 66]) false
        (RecvState.mk (List.replicate 516 0) [] 1 0 false)).acts.take 1
        = [Action.send [0, TFTP_ACK, 1 / 256 % 256, 1 % 256]])
    ∧ (process_transfer_receive (.packet [0, 3, 0, 1, 65, 66]) false
        (RecvState.mk (List.replicate 516 0) [] 1 0 false)).state.block_number = 1 + 1
    ∧ (false = true →
        (process_transfer_receive (.packet [0, 3, 0, 1, 65, 66]) false
          (RecvState.mk (List.replicate 516 0) [] 1 0 false)).acts
          = [Action.send [0, TFTP_ACK, 1 / 256 % 256, 1 % 256],
             Action.fwrite ([0, 3, 0, 1, 65, 66].drop 4)])
    ∧ (false = false →
        (process_transfer_receive (.packet [0, 3, 0, 1, 65, 66]) false
          (RecvState.mk (List.replicate 516 0) [] 1 0 false)).acts
          = [Action.send [0, TFTP_ACK, 1 / 256 % 256, 1 % 256]]
        ∧ (process_transfer_receive (.packet [0, 3, 0, 1, 65, 66]) false
            (RecvState.mk (List.replicate 516 0) [] 1 0 false)).state.fileData = []
        ∧ (process_transfer_receive (.packet [0, 3, 0, 1, 65, 66]) false
            (RecvState.mk (List.replicate 516 0) [] 1 0 false)).cont = false) :=
  c10_ack_before_write (RecvState.mk (List.replicate 516 0) [] 1 0 false)
    [0, 3, 0, 1, 65, 66] false (by decide) (by decide) (by decide)

/-- C4 amended.  The send loop advances its state (block incremented, retry
reset, success set) exactly when the received datagram's opcode byte is
ACK or DATA — `get_response` accepts both and `check_ack` ignores the
opcode — and its block-number bytes equal the expected block's encoding;
in particular an ACK carrying the 16-bit encoding of `b + 1` or `b - 1`
never matches block `b`, so the sender never advances on them. -/
theorem c4_amended :
    (∀ (s : SendState) (p : List Nat), 4 ≤ p.length → s.file ≠ [] →
      (((process_transfer_send (.packet p) s).state.block_number = s.block_number + 1
        ∧ (process_transfer_send (.packet p) s).state.retry = 0
        ∧ (process_transfer_send (.packet p) s).state.success = true)
       ↔ ((p.getD 1 0 = TFTP_ACK ∨ p.getD 1 0 = TFTP_DATA)
          ∧ check_ack p s.block_number = true)))
    ∧ (∀ b : Nat, check_ack [0, TFTP_ACK, (b + 1) / 256 % 256, (b + 1) % 256] b = false)
    ∧ (∀ b : Nat, 1 ≤ b → check_ack [0, TFTP_ACK, (b - 1) / 256 % 256, (b - 1) % 256] b = false)
    := by
  refine ⟨?_, ?_, ?_⟩
  · intro s p hlen hfile
    have hb0 : ¬ (s.file.take TFTP_MAX_DATA_SIZE).length = 0 := by
      have := List.length_pos.mpr hfile
      simp only [List.length_take, TFTP_MAX_DATA_SIZE]
      omega
    constructor
    · intro hadv
      by_cases hack : check_ack p s.block_number = true
      · by_cases hop4 : p.getD 1 0 = TFTP_ACK
        · exact ⟨Or.inl hop4, hack⟩
        · by_cases hop3 : p.getD 1 0 = TFTP_DATA
          · exact ⟨Or.inr hop3, hack⟩
          · exfalso
            have hstep := hadv.1
            simp only [process_transfer_send, get_response_other p (by omega) hop4 hop3,
              hb0, if_false] at hstep
            norm_num at hstep
      · exfalso
        have hackf : check_ack p s.block_number = false := by
          simpa using hack
        have hcaf : ∀ X : List Nat,
            check_ack (recv_overwrite X p) s.block_number = false :=
          fun X => by rw [check_ack_recv_overwrite _ _ hlen]; exact hackf
        have hstep := hadv.1
        by_cases hop4 : p.getD 1 0 = TFTP_ACK
        · rcases Int.le_or_lt 3 (s.retry + 1) with hr | hr
          · simp only [process_transfer_send, get_response_ack p (by omega) hop4,
              hb0, if_false, va_mismatch_abort _ _ _ _ _ (hcaf _) hr] at hstep
            norm_num at hstep
          · simp only [process_transfer_send, get_response_ack p (by omega) hop4,
              hb0, if_false, va_mismatch_retry_up _ _ _ _ (hcaf _) hr] at hstep
            norm_num at hstep
        · by_cases hop3 : p.getD 1 0 = TFTP_DATA
          · have hn : ¬ ((p.length : Int) < 0) := by omega
            rcases Int.le_or_lt 3 (s.retry + 1) with hr | hr
            · simp only [process_transfer_send, get_response_data p (by omega) hop3,
                hb0, if_false, hn, va_mismatch_abort _ _ _ _ _ (hcaf _) hr] at hstep
              norm_num at hstep
            · simp only [process_transfer_send, get_response_data p (by omega) hop3,
                hb0, if_false, hn, va_mismatch_retry_up _ _ _ _ (hcaf _) hr] at hstep
              norm_num at hstep
          · simp only [process_transfer_send, get_response_other p (by omega) hop4 hop3,
              hb0, if_false] at hstep
            norm_num at hstep
    · rintro ⟨hop, hack⟩
      have hca : ∀ X : List Nat, check_ack (recv_overwrite X p) s.block_number = true :=
        fun X => by rw [check_ack_recv_overwrite _ _ hlen]; exact hack
      have hva : ∀ (X : List Nat) (r : Int) (n : Nat),
          validate_and_retry (recv_overwrite X p) s.block_number r n true
            = ⟨true, recv_overwrite X p, s.block_number + 1, 0, true, []⟩ :=
        fun X r n => va_match_up _ _ _ _ (hca X)
      rcases hop with hop | hop
      · simp only [process_transfer_send, get_response_ack p (by omega) hop,
          hb0, if_false, hva]
        norm_num
        rcases Nat.lt_or_ge s.file.length TFTP_MAX_DATA_SIZE with h | h
        · simp [h]
        · simp [Nat.not_lt.mpr h]
      · have hn : ¬ ((p.length : Int) < 0) := by omega
        simp only [process_transfer_send, get_response_data p (by omega) hop,
          hb0, if_false, hn, hva]
        norm_num
        rcases Nat.lt_or_ge s.file.length TFTP_MAX_DATA_SIZE with h | h
        · simp [h]
        · simp [Nat.not_lt.mpr h]
  · intro b
    have h3 : ([0, TFTP_ACK, (b + 1) / 256 % 256, (b + 1) % 256] : List Nat).getD 3 0
        = (b + 1) % 256 := rfl
    simp only [check_ack, h3, Bool.and_eq_false_iff]
    right
    rw [beq_eq_false_iff_ne]
    omega
  · intro b hb
    have h3 : ([0, TFTP_ACK, (b - 1) / 256 % 256, (b - 1) % 256] : List Nat).getD 3 0
        = (b - 1) % 256 := rfl
    simp only [check_ack, h3, Bool.and_eq_false_iff]
    right
    rw [beq_eq_false_iff_ne]
    omega

/-- Witness for the amended C4 at a concrete matching ACK. -/
theorem c4_amended_witness :
    (process_transfer_send (.packet [0, 4, 0, 5])
        (SendState.mk (List.replicate 516 0) [9] 5 0 false)).state.block_number = 5 + 1
    ∧ (process_transfer_send (.packet [0, 4, 0, 5])
        (SendState.mk (List.replicate 516 0) [9] 5 0 false)).state.retry = 0
    ∧ (process_transfer_send (.packet [0, 4, 0, 5])
        (SendState.mk (List.replicate 516 0) [9] 5 0 false)).state.success = true :=
  (c4_amended.1 (SendState.mk (List.replicate 516 0) [9] 5 0 false) [0, 4, 0, 5]
    (by decide) (by decide)).mpr (by decide)

/-- C8 amended.  On the wire the DATA encoder truncates the block number mod
2^16, and `check_ack` is an equality-only comparison: for an internal
counter up to 65535 it accepts exactly the 16-bit encoding of the block,
but the counter itself never wraps, and once it exceeds 65535 the
untruncated high-byte comparison rejects every datagram, so the wrapped
ACK is not accepted. -/
theorem c8_amended :
    (∀ (p : List Nat) (b : Nat), p.getD 2 0 < 256 → p.getD 3 0 < 256 → b ≤ 65535 →
      (check_ack p b = true ↔ p.getD 2 0 * 256 + p.getD 3 0 = b % 65536))
    ∧ (∀ (p : List Nat) (b : Nat), p.getD 2 0 < 256 → 65536 ≤ b → check_ack p b = false)
    ∧ (∀ (buffer : List Nat) (n b : Nat),
        (send_data_packet buffer n b).2
          = ([0, TFTP_DATA, b % 65536 / 256, b % 65536 % 256] ++ buffer.drop 4).take (n + 4))
    := by
  refine ⟨?_, ?_, ?_⟩
  · intro p b h2 h3 hb
    rw [Nat.mod_eq_of_lt (by omega)]
    simp only [check_ack, Bool.and_eq_true, beq_iff_eq]
    omega
  · intro p b h2 hb
    simp only [check_ack, Bool.and_eq_false_iff]
    left
    rw [beq_eq_false_iff_ne]
    omega
  · intro buffer n b
    have h1 : b % 65536 / 256 = b / 256 % 256 := by
      rw [show (65536 : Nat) = 256 * 256 from rfl, Nat.mod_mul_right_div_self]
    have h2 : b % 65536 % 256 = b % 256 := Nat.mod_mod_of_dvd b (by norm_num)
    rw [h1, h2]
    rfl

/-- Witness for the amended C8: acceptance below the wrap point, rejection
above it. -/
theorem c8_amended_witness :
    check_ack [0, 4, 1, 2] 258 = true ∧ check_ack [0, 4, 0, 0] 70000 = false :=
  ⟨(c8_amended.1 [0, 4, 1, 2] 258 (by decide) (by decide) (by decide)).mpr (by decide),
   c8_amended.2.1 [0, 4, 0, 0] 70000 (by decide) (by decide)⟩

/-- Every byte of every canonical error message is nonzero. -/
theorem tftp_error_message_bytes_pos (code : Nat) :
    ∀ x ∈ strBytes (tftp_error_message code), x ≠ 0 := by
  unfold tftp_error_message
  repeat' split
  all_goals decide

/-- `strlen` of a NUL-free prefix followed by a NUL. -/
theorem cstr_append_zero (l t : List Nat) (h : ∀ x ∈ l, x ≠ 0) :
    cstr (l ++ 0 :: t) = l := by
  induction l with
  | nil => simp [cstr]
  | cons a l ih =>
      have ha : a ≠ 0 := h a (List.mem_cons_self a l)
      have ih1 := ih (fun x hx => h x (List.mem_cons_of_mem a hx))
      simp only [List.cons_append, cstr, List.takeWhile_cons] at ih1 ⊢
      simp [ha] at ih1 ⊢
      exact ih1

/-- Dropping the 4-byte header of a packet buffer. -/
theorem drop_four_header (a b c d : Nat) (X : List Nat) : ([a, b, c, d] ++ X).drop 4 = X := rfl

/-- Taking a 4-byte header, a NUL-free message and its terminator out of the
buffer. -/
theorem take_header_msg (hd ms t : List Nat) (h : hd.length = 4) :
    (hd ++ (ms ++ (0 :: t))).take (4 + ms.length + 1) = hd ++ ms ++ [0] := by
  rw [show hd ++ (ms ++ (0 :: t)) = (hd ++ ms ++ [0]) ++ t by simp]
  exact List.take_left' (by simp [h]; omega)

/-- C9.  `send_error_packet` lays `[0, 5, code_hi, code_lo]`, then the
message — the canonical text alone, or `"<canonical> - <custom>"` when a
custom message is supplied — truncated by `snprintf` to 511 bytes so that
message plus NUL fit in 512, then the terminating NUL; the datagram never
exceeds 516 bytes. -/
theorem c9_error_packet_layout (code : Nat) (custom : Option (List Nat))
    (buffer : List Nat) (hc : ∀ m ∈ custom, ∀ x ∈ m, x ≠ 0) :
    (send_error_packet code custom buffer).2
      = [0, TFTP_ERROR, code / 256 % 256, code % 256]
        ++ (error_payload code custom).take 511 ++ [0]
    ∧ (send_error_packet code custom buffer).2.length ≤ 516 := by
  have hmsg : ∀ x ∈ error_payload code custom, x ≠ 0 := by
    cases custom with
    | none => exact tftp_error_message_bytes_pos code
    | some c =>
        intro x hx
        simp only [error_payload, List.mem_append] at hx
        rcases hx with (hx | hx) | hx
        · exact tftp_error_message_bytes_pos code x hx
        · exact (by decide : ∀ x ∈ strBytes " - ", x ≠ 0) x hx
        · exact hc c rfl x hx
  have hm511 : ∀ x ∈ (error_payload code custom).take 511, x ≠ 0 :=
    fun x hx => hmsg x (List.mem_of_mem_take hx)
  have hsent : (send_error_packet code custom buffer).2
      = [0, TFTP_ERROR, code / 256 % 256, code % 256]
        ++ (error_payload code custom).take 511 ++ [0] := by
    simp only [send_error_packet, snprintf_write, TFTP_MAX_PACKET_SIZE,
      TFTP_DATA_HEADER_SIZE, show (516 : Nat) - 4 - 1 = 511 from rfl,
      show (516 : Nat) - 4 = 512 from rfl, show (512 : Nat) - 1 = 511 from rfl,
      drop_four_header, List.append_assoc, List.singleton_append]
    rw [cstr_append_zero _ _ hm511]
    exact take_header_msg _ _ _ rfl
  refine ⟨hsent, ?_⟩
  rw [hsent]
  simp only [List.length_append, List.length_cons, List.length_nil, List.length_take]
  omega

/-- Witness for C9 at error code 0 with a one-byte custom message. -/
theorem c9_error_packet_layout_witness :
    (send_error_packet 0 (some [65]) (List.replicate 516 9)).2
      = [0, TFTP_ERROR, 0 / 256 % 256, 0 % 256]
        ++ (error_payload 0 (some [65])).take 511 ++ [0]
    ∧ (send_error_packet 0 (some [65]) (List.replicate 516 9)).2.length ≤ 516 :=
  c9_error_packet_layout 0 (some [65]) (List.replicate 516 9) (by decide)

/-- `getD` through the zero padding: for datagrams within the 516-byte
buffer the padded read agrees with reading the datagram (out-of-range
reads default to 0 on both sides). -/
theorem padBuffer_getD (d : List Nat) (hlen : d.length ≤ 516) (i : Nat) :
    (padBuffer d).getD i 0 = d.getD i 0 := by
  rcases Nat.lt_or_ge i d.length with h1 | h1
  · unfold padBuffer
    simp [List.getD_eq_getElem?_getD, List.getElem?_append_left h1]
  · have hd0 : d.getD i 0 = 0 := List.getD_eq_default _ _ h1
    rw [hd0]
    rcases Nat.lt_or_ge i 516 with h2 | h2
    · unfold padBuffer
      rw [List.getD_eq_getElem?_getD, List.getElem?_append_right h1,
        List.getElem?_replicate]
      simp [TFTP_MAX_PACKET_SIZE, show i - d.length < 516 - d.length from by omega]
    · apply List.getD_eq_default
      unfold padBuffer
      simp only [List.length_append, List.length_replicate, TFTP_MAX_PACKET_SIZE]
      omega

/-- Zero padding never extends a C string. -/
theorem cstr_append_replicate_zero (x : List Nat) (m : Nat) :
    cstr (x ++ List.replicate m 0) = cstr x := by
  induction x with
  | nil =>
      cases m with
      | zero => rfl
      | succ k => simp [cstr, List.replicate_succ, List.takeWhile_cons]
  | cons a t ih =>
      by_cases ha : a = 0
      · simp [cstr, List.takeWhile_cons, ha]
      · simp [cstr, List.takeWhile_cons, ha]
        simpa [cstr] using ih

/-- Reading a C string out of the zero-padded dispatcher buffer is reading
it out of the datagram. -/
theorem padBuffer_cstr_drop (d : List Nat) (k : Nat) :
    cstr ((padBuffer d).drop k) = cstr (d.drop k) := by
  unfold padBuffer
  rw [List.drop_append_eq_append_drop]
  have : (List.replicate (TFTP_MAX_PACKET_SIZE - d.length) 0).drop (k - d.length)
      = List.replicate ((TFTP_MAX_PACKET_SIZE - d.length) - (k - d.length)) 0 := by
    simp [List.drop_replicate]
  rw [this, cstr_append_replicate_zero]

/-- C7.  The dispatcher's structural validation accepts a datagram exactly
when the specification's four conditions hold: length at least 4, opcode
in {1,2,6}, filename present and NUL-terminated inside the datagram, and
mode present and case-insensitively equal to "octet"; a handler can only
run when the validation accepted, and whenever the conditions fail the
rejecting validator sent an ERROR packet. -/
theorem c7_dispatcher_validation (d : List Nat) (hlen : d.length ≤ 516) (fsOk : Bool) :
    ((validate_request_core d).1 = true ↔ spec_accepts d)
    ∧ (validate_request d fsOk = true → spec_accepts d)
    ∧ ((validate_request_core d).1 = false → (validate_request_core d).2 = true) := by
  have hcore : (validate_request_core d).1
      = (validate_request_count d.length && validate_mode (padBuffer d)
         && validate_operation (padBuffer d) && validate_filename (padBuffer d)) := by
    unfold validate_request_core
    by_cases h1 : validate_request_count d.length = true <;>
      by_cases h2 : validate_mode (padBuffer d) = true <;>
        by_cases h3 : validate_operation (padBuffer d) = true <;>
          by_cases h4 : validate_filename (padBuffer d) = true <;>
            simp_all
  have hc : validate_request_count d.length = true ↔ 4 ≤ d.length := by
    unfold validate_request_count
    simp [TFTP_DATA_HEADER_SIZE]
  have hm : validate_mode (padBuffer d) = true
      ↔ (cstr (d.drop (2 + (cstr (d.drop 2)).length + 1))).map toLowerByte
          = octetBytes := by
    simp only [validate_mode, padBuffer_cstr_drop d 2, padBuffer_cstr_drop d _]
    simp [beq_iff_eq]
  have hopv : validate_operation (padBuffer d) = true
      ↔ (d.getD 0 0 * 256 + d.getD 1 0 = 1 ∨ d.getD 0 0 * 256 + d.getD 1 0 = 2
          ∨ d.getD 0 0 * 256 + d.getD 1 0 = 6) := by
    simp only [validate_operation, padBuffer_getD d hlen 0, padBuffer_getD d hlen 1]
    simp [TFTP_RRQ, TFTP_WRQ, TFTP_DRQ, or_assoc]
  have hf : validate_filename (padBuffer d) = true ↔ cstr (d.drop 2) ≠ [] := by
    simp only [validate_filename, padBuffer_cstr_drop d 2]
    simp [MAX_FILE_NAME, List.length_eq_zero]
  have hiff : (validate_request_core d).1 = true ↔ spec_accepts d := by
    constructor
    · intro h
      rw [hcore] at h
      simp only [Bool.and_eq_true] at h
      obtain ⟨⟨⟨h1, h2⟩, h3⟩, h4⟩ := h
      have hmode := hm.mp h2
      have hmne : cstr (d.drop (2 + (cstr (d.drop 2)).length + 1)) ≠ [] := by
        intro he
        rw [he] at hmode
        simp [octetBytes] at hmode
      have hdne : ¬ (d.length ≤ 2 + (cstr (d.drop 2)).length + 1) := by
        intro he
        have hdrop : d.drop (2 + (cstr (d.drop 2)).length + 1) = [] :=
          List.drop_eq_nil_of_le he
        apply hmne
        rw [cstr, hdrop]
        rfl
      exact ⟨hc.mp h1, hopv.mp h3, ⟨hf.mp h4, by omega⟩, hmode⟩
    · rintro ⟨h1, h2, ⟨h3, h4⟩, h5⟩
      rw [hcore]
      simp only [Bool.and_eq_true]
      exact ⟨⟨⟨hc.mpr h1, hm.mpr h5⟩, hopv.mpr h2⟩, hf.mpr h3⟩
  refine ⟨hiff, ?_, ?_⟩
  · intro h
    apply hiff.mp
    unfold validate_request at h
    simp only [Bool.and_eq_true] at h
    exact h.1
  · intro h
    unfold validate_request_core at h ⊢
    by_cases h1 : validate_request_count d.length = true <;>
      by_cases h2 : validate_mode (padBuffer d) = true <;>
        by_cases h3 : validate_operation (padBuffer d) = true <;>
          by_cases h4 : validate_filename (padBuffer d) = true <;>
            simp_all

/-- Witness for C7 at the well-formed datagram RRQ "f" "octet". -/
theorem c7_dispatcher_validation_witness :
    ((validate_request_core [0, 1, 102, 0, 111, 99, 116, 101, 116, 0]).1 = true
      ↔ spec_accepts [0, 1, 102, 0, 111, 99, 116, 101, 116, 0])
    ∧ (validate_request [0, 1, 102, 0, 111, 99, 116, 101, 116, 0] true = true
        → spec_accepts [0, 1, 102, 0, 111, 99, 116, 101, 116, 0])
    ∧ ((validate_request_core [0, 1, 102, 0, 111, 99, 116, 101, 116, 0]).1 = false
        → (validate_request_core [0, 1, 102, 0, 111, 99, 116, 101, 116, 0]).2 = true) :=
  c7_dispatcher_validation [0, 1, 102, 0, 111, 99, 116, 101, 116, 0] (by decide) true

/-- The two possible retry outcomes of one `validate_and_retry` call: reset
to 0 with success, or incremented by one with the call succeeding exactly
when the incremented counter is still below 3. -/
theorem va_retry_spec (buffer : List Nat) (b : Nat) (r : Int) (n : Nat) (u : Bool) :
    ((validate_and_retry buffer b r n u).retry = 0
      ∧ (validate_and_retry buffer b r n u).ok = true)
    ∨ ((validate_and_retry buffer b r n u).retry = r + 1
      ∧ ((validate_and_retry buffer b r n u).ok = true ↔ r + 1 < 3)) := by
  simp only [validate_and_retry]
  by_cases hc : check_ack buffer b = true
  · rw [if_neg (by simp [hc])]
    cases u
    · left; exact ⟨rfl, rfl⟩
    · left; exact ⟨rfl, rfl⟩
  · rw [if_pos (by simp [hc])]
    rcases Int.le_or_lt 3 (r + 1) with h3 | h3
    · rw [if_pos (by simpa [TFTP_MAX_RETRIES] using h3)]
      right
      refine ⟨rfl, ?_⟩
      simp
      omega
    · rw [if_neg (by simp [TFTP_MAX_RETRIES]; omega)]
      cases u
      · right; exact ⟨rfl, by simp [h3]⟩
      · right; exact ⟨rfl, by simp [h3]⟩

/-- Step invariant of the retry counter on the receive side. -/
theorem recv_step_retry_inv (ev : NetEvent) (w : Bool) (s : RecvState)
    (hr : s.retry < 3) :
    (process_transfer_receive ev w s).state.retry ≤ 3
    ∧ ((process_transfer_receive ev w s).cont = true
        → (process_transfer_receive ev w s).state.retry < 3)
    ∧ ((process_transfer_receive ev w s).state.retry = 3
        → (process_transfer_receive ev w s).cont = false) := by
  simp only [process_transfer_receive]
  set gr := get_response ev s.buffer with hgr
  have hspec := va_retry_spec gr.2 s.block_number s.retry 0 false
  set vr := validate_and_retry gr.2 s.block_number s.retry 0 false with hvr
  clear hvr hgr
  clear_value vr gr
  split_ifs <;> rcases hspec with ⟨h5, h6⟩ | ⟨h5, h6⟩ <;> simp_all <;> omega

/-- Step invariant of the retry counter on the send side. -/
theorem send_step_retry_inv (ev : NetEvent) (s : SendState) (hr : s.retry < 3) :
    (process_transfer_send ev s).state.retry ≤ 3
    ∧ ((process_transfer_send ev s).cont = true
        → (process_transfer_send ev s).state.retry < 3)
    ∧ ((process_transfer_send ev s).state.retry = 3
        → (process_transfer_send ev s).cont = false) := by
  simp only [process_transfer_send]
  set c := s.file.take TFTP_MAX_DATA_SIZE with hchunk
  set buf0 := s.buffer.take TFTP_DATA_HEADER_SIZE ++ c
    ++ s.buffer.drop (TFTP_DATA_HEADER_SIZE + c.length) with hbuf0
  set sd := send_data_packet buf0 c.length s.block_number with hsd
  set gr := get_response ev sd.1 with hgr
  have hspec := va_retry_spec gr.2 s.block_number s.retry c.length true
  set vr := validate_and_retry gr.2 s.block_number s.retry c.length true with hvr
  clear hvr hgr hsd hbuf0 hchunk
  clear_value vr gr sd buf0 c
  split_ifs <;> rcases hspec with ⟨h5, h6⟩ | ⟨h5, h6⟩ <;> simp_all <;> omega

/-- An ACK datagram at the head of a trace adds one to the count. -/
theorem countAckSends_cons_ack (q : List Nat) (hq : q.getD 1 0 = TFTP_ACK)
    (l : List Action) :
    countAckSends (Action.send q :: l) = countAckSends l + 1 := by
  rw [List.getD_eq_getElem?_getD] at hq
  simp [countAckSends, List.filter_cons, hq]

/-- A file write at the head of a trace does not change the ACK count. -/
theorem countAckSends_cons_fwrite (x : List Nat) (l : List Action) :
    countAckSends (Action.fwrite x :: l) = countAckSends l := by
  simp [countAckSends, List.filter_cons]

/-- A run of consecutive mismatching DATA datagrams makes the receive loop
retransmit its ACK `min n (2 - r).toNat` times before aborting. -/
theorem recv_mismatch_streak (p : List Nat) (b : Nat)
    (hop : p.getD 1 0 = TFTP_DATA) (hlen : 4 ≤ p.length)
    (hack : check_ack p b = false) :
    ∀ (n : Nat) (r : Int), r < 3 → ∀ (buf : List Nat) (fd : List (List Nat)) (suc : Bool),
      countAckSends (transfer_receive_loop
        (List.replicate n (NetEvent.packet p, true)) ⟨buf, fd, b, r, suc⟩).2
        = min n (2 - r).toNat := by
  intro n
  induction n with
  | zero =>
      intro r hr buf fd suc
      simp [transfer_receive_loop, countAckSends]
  | succ k ih =>
      intro r hr buf fd suc
      have hca : check_ack (recv_overwrite buf p) b = false := by
        rw [check_ack_recv_overwrite _ _ hlen]; exact hack
      have hn : ¬ ((p.length : Int) < 0) := by omega
      rcases Int.le_or_lt 3 (r + 1) with hr1 | hr1
      · rw [List.replicate_succ]
        simp only [transfer_receive_loop, process_transfer_receive,
          get_response_data p (by omega) hop, hn, if_false,
          va_mismatch_abort _ _ _ _ _ hca hr1]
        norm_num [countAckSends]
        omega
      · rw [List.replicate_succ]
        have h4 : ¬ (((p.length : Int) - 4 < 0) ∨ (true = false)) := by
          simp
          omega
        simp only [transfer_receive_loop, process_transfer_receive,
          get_response_data p (by omega) hop, hn, if_false,
          va_mismatch_retry_down _ _ _ _ hca hr1, send_ack_snd, h4]
        norm_num
        rw [countAckSends_cons_ack [0, TFTP_ACK, b / 256 % 256, b % 256] rfl,
          countAckSends_cons_fwrite, ih (r + 1) (by omega)]
        omega

/-- C2 amended.  The retry counter never exceeds 3: any step taken from a
counter below 3 leaves it at most 3, a step that continues the loop
leaves it strictly below 3, and a step that brings it to 3 aborts the
transfer — on both the receive and the send side.  However, the number of
consecutive ACK retransmissions of one block on the receive side is
`2 - r` for a loop whose counter currently holds `r`: 2 after a reset to
0, 3 from client download's initial -1, and 4 from server upload's
initial -2, so a uniform bound of 3 retransmissions does not hold. -/
theorem c2_amended :
    (∀ (ev : NetEvent) (w : Bool) (s : RecvState), s.retry < 3 →
      (process_transfer_receive ev w s).state.retry ≤ 3
      ∧ ((process_transfer_receive ev w s).cont = true
          → (process_transfer_receive ev w s).state.retry < 3)
      ∧ ((process_transfer_receive ev w s).state.retry = 3
          → (process_transfer_receive ev w s).cont = false))
    ∧ (∀ (ev : NetEvent) (s : SendState), s.retry < 3 →
      (process_transfer_send ev s).state.retry ≤ 3
      ∧ ((process_transfer_send ev s).cont = true
          → (process_transfer_send ev s).state.retry < 3)
      ∧ ((process_transfer_send ev s).state.retry = 3
          → (process_transfer_send ev s).cont = false))
    ∧ (∀ (p : List Nat) (b : Nat), p.getD 1 0 = TFTP_DATA → 4 ≤ p.length →
        check_ack p b = false →
        ∀ (n : Nat) (r : Int), r < 3 →
          ∀ (buf : List Nat) (fd : List (List Nat)) (suc : Bool),
          countAckSends (transfer_receive_loop
            (List.replicate n (NetEvent.packet p, true)) ⟨buf, fd, b, r, suc⟩).2
            = min n (2 - r).toNat) :=
  ⟨recv_step_retry_inv, send_step_retry_inv, recv_mismatch_streak⟩

/-- Witness for the amended C2: from server upload's initial counter -2,
five mismatching datagrams produce exactly four ACK retransmissions. -/
theorem c2_amended_witness :
    countAckSends (transfer_receive_loop
      (List.replicate 5 (NetEvent.packet [0, 3, 9, 9], true))
      (RecvState.mk (List.replicate 516 0) [] 1 (-2) false)).2
      = min 5 ((2 : Int) - (-2)).toNat :=
  c2_amended.2.2 [0, 3, 9, 9] 1 (by decide) (by decide) (by decide) 5 (-2) (by decide)
    (List.replicate 516 0) [] false

end TFTP
